import Mathlib

/-!
Verification of the pgAdmin connection-profile registry
(`src/services/pgadmin/servers.py`) against its specification.

The source file declares a single constant `SERVERS`: a mapping from a
string profile id to a record of connection parameters.  We embed the
record as a structure and the registry as an association list, keeping
the source's field names and values.  The consuming tool's load-time
validation and (de)serialization are not part of the repository; where a
claim needs them they are modelled from the spec and marked as such.
-/

/-- A connection profile record, one value of the `SERVERS` mapping in
`src/services/pgadmin/servers.py`.  The `password` field is optional in
the schema (spec section 3: present only if `save_password` is true), so it
is embedded as `Option String`; in the source it is present. -/
structure ConnectionProfile where
  name : String
  group_name : String
  host : String
  port : Int
  maintenance_db : String
  username : String
  password : Option String
  ssl_mode : String
  connect_timeout : Int
  save_password : Bool
deriving DecidableEq, Repr

/-- The registry: a mapping from profile id (the key) to its record,
embedded as an association list preserving the source's order. -/
abbrev Registry := List (String × ConnectionProfile)

/-- The single profile record stored under key "1" in `SERVERS`
(`src/services/pgadmin/servers.py`, lines 7-18). -/
def profile1 : ConnectionProfile :=
  { name := "nba-stats-db"
    group_name := "Servers"
    host := "postgres"
    port := 5432
    maintenance_db := "postgres"
    username := "postgres"
    password := some "postgres"
    ssl_mode := "prefer"
    connect_timeout := 10
    save_password := true }

/-- The `SERVERS` constant of `src/services/pgadmin/servers.py`:
a one-entry mapping from the id "1" to `profile1`. -/
def SERVERS : Registry := [("1", profile1)]

/-- The recognized SSL modes (spec sections 3 and 8). -/
def sslModes : List String :=
  ["disable", "allow", "prefer", "require", "verify-ca", "verify-full"]

/-- Modelled from the spec: the error kinds of section 7, raised by the
consuming tool's load-time validation, which is not part of this
repository.  SchemaViolation: missing/invalid field; DuplicateKey: two
entries share an id; RangeViolation: port or timeout out of bounds. -/
inductive ValidationError where
  | SchemaViolation
  | DuplicateKey
  | RangeViolation
deriving DecidableEq, Repr

/-- Modelled from the spec: load-time validation of a single registry
entry (spec sections 3, 4.1 and 7), which is not part of this repository.
Checks the section 3 invariants: non-empty id and string fields, a
recognized ssl_mode, port in [1, 65535] and connect_timeout > 0
(RangeViolation for the latter two), and password present only if
save_password is true. -/
def validateEntry (id : String) (p : ConnectionProfile) :
    Except ValidationError Unit :=
  if id = "" then .error .SchemaViolation
  else if p.name = "" ∨ p.group_name = "" ∨ p.host = "" ∨
      p.maintenance_db = "" ∨ p.username = "" then .error .SchemaViolation
  else if ¬ p.ssl_mode ∈ sslModes then .error .SchemaViolation
  else if p.port < 1 ∨ 65535 < p.port then .error .RangeViolation
  else if p.connect_timeout ≤ 0 then .error .RangeViolation
  else if p.password.isSome ∧ p.save_password = false then
    .error .SchemaViolation
  else .ok ()

/-- Modelled from the spec: validation of every entry of a registry in
order, which is not part of this repository. -/
def validateEntries : Registry → Except ValidationError Unit
  | [] => .ok ()
  | (k, p) :: rest => do
      validateEntry k p
      validateEntries rest

/-- Modelled from the spec: load-time validation of the whole registry
(spec sections 4.1 and 7), which is not part of this repository.
Duplicate ids are a DuplicateKey error; otherwise every entry is
validated. -/
def validateRegistry (r : Registry) : Except ValidationError Unit :=
  if (r.map Prod.fst).Nodup then validateEntries r
  else .error .DuplicateKey

/-- A primitive value of the nested key-value document format
(spec section 6). -/
inductive Value where
  | vStr (s : String)
  | vInt (n : Int)
  | vBool (b : Bool)
deriving DecidableEq, Repr

/-- A serialized record: a list of field-name/value pairs. -/
abbrev Doc := List (String × Value)

/-- Look up the first value bound to a key in a serialized record. -/
def lookupVal : Doc → String → Option Value
  | [], _ => none
  | (k, v) :: rest, key => if k = key then some v else lookupVal rest key

/-- Read a looked-up value as a string. -/
def asStr : Option Value → Option String
  | some (.vStr s) => some s
  | _ => none

/-- Read a looked-up value as an integer. -/
def asInt : Option Value → Option Int
  | some (.vInt n) => some n
  | _ => none

/-- Read a looked-up value as a boolean. -/
def asBool : Option Value → Option Bool
  | some (.vBool b) => some b
  | _ => none

/-- Modelled from the spec: serialization of one profile record to the
nested key-value document format of spec section 6, which is not part of
this repository.  The optional password field is emitted only when
present. -/
def serializeProfile (p : ConnectionProfile) : Doc :=
  [("name", .vStr p.name),
   ("group_name", .vStr p.group_name),
   ("host", .vStr p.host),
   ("port", .vInt p.port),
   ("maintenance_db", .vStr p.maintenance_db),
   ("username", .vStr p.username),
   ("ssl_mode", .vStr p.ssl_mode),
   ("connect_timeout", .vInt p.connect_timeout),
   ("save_password", .vBool p.save_password)] ++
  (match p.password with
   | some pw => [("password", .vStr pw)]
   | none => [])

/-- Modelled from the spec: deserialization of one profile record from
the document format, which is not part of this repository.  Fails when a
required field is missing or has the wrong type; the password field is
optional. -/
def deserializeProfile (d : Doc) : Option ConnectionProfile := do
  let name ← asStr (lookupVal d "name")
  let group_name ← asStr (lookupVal d "group_name")
  let host ← asStr (lookupVal d "host")
  let port ← asInt (lookupVal d "port")
  let maintenance_db ← asStr (lookupVal d "maintenance_db")
  let username ← asStr (lookupVal d "username")
  let ssl_mode ← asStr (lookupVal d "ssl_mode")
  let connect_timeout ← asInt (lookupVal d "connect_timeout")
  let save_password ← asBool (lookupVal d "save_password")
  let password := asStr (lookupVal d "password")
  pure { name, group_name, host, port, maintenance_db, username,
         password, ssl_mode, connect_timeout, save_password }

/-- Modelled from the spec: serialization of the whole registry, which is
not part of this repository. -/
def serializeRegistry (r : Registry) : List (String × Doc) :=
  r.map (fun kp => (kp.1, serializeProfile kp.2))

/-- Modelled from the spec: deserialization of the whole registry, which
is not part of this repository. -/
def deserializeRegistry : List (String × Doc) → Option Registry
  | [] => some []
  | (k, d) :: rest => do
      let p ← deserializeProfile d
      let r ← deserializeRegistry rest
      pure ((k, p) :: r)

theorem deserializeProfile_serializeProfile (p : ConnectionProfile) :
    deserializeProfile (serializeProfile p) = some p := by
  cases p with
  | mk name group_name host port maintenance_db username password
      ssl_mode connect_timeout save_password =>
    cases password <;> rfl

/-- C1: Loading the registry succeeds without error and yields exactly
one profile, whose name is "nba-stats-db", host "postgres", port 5432,
ssl_mode "prefer", connect_timeout 10, and save_password true. -/
theorem C1_registry_loads :
    validateRegistry SERVERS = Except.ok () ∧
    SERVERS.length = 1 ∧
    SERVERS = [("1", profile1)] ∧
    profile1.name = "nba-stats-db" ∧
    profile1.host = "postgres" ∧
    profile1.port = 5432 ∧
    profile1.ssl_mode = "prefer" ∧
    profile1.connect_timeout = 10 ∧
    profile1.save_password = true := by
  refine ⟨?_, rfl, rfl, rfl, rfl, rfl, rfl, rfl, rfl⟩
  rfl

/-- C2: For every entry in the registry, the port field is an integer in
the inclusive range 1 to 65535. -/
theorem C2_port_in_range :
    ∀ kp ∈ SERVERS, 1 ≤ kp.2.port ∧ kp.2.port ≤ 65535 := by
  decide

theorem C2_port_in_range_witness :
    1 ≤ profile1.port ∧ profile1.port ≤ 65535 :=
  C2_port_in_range ("1", profile1) (by decide)

/-- C3: For every entry in the registry, the connect_timeout field is an
integer strictly greater than 0. -/
theorem C3_timeout_positive :
    ∀ kp ∈ SERVERS, 0 < kp.2.connect_timeout := by
  decide

theorem C3_timeout_positive_witness :
    0 < profile1.connect_timeout :=
  C3_timeout_positive ("1", profile1) (by decide)

/-- C4: For every entry in the registry, the ssl_mode field is one of the
six recognized strings disable, allow, prefer, require, verify-ca,
verify-full. -/
theorem C4_ssl_mode_recognized :
    ∀ kp ∈ SERVERS, kp.2.ssl_mode ∈ sslModes := by
  decide

theorem C4_ssl_mode_recognized_witness :
    profile1.ssl_mode ∈ sslModes :=
  C4_ssl_mode_recognized ("1", profile1) (by decide)

/-- C5: Every entry of the registry has an id (its key in the mapping)
that is a non-empty string, and the ids are unique among sibling
entries. -/
theorem C5_ids_nonempty_unique :
    (∀ kp ∈ SERVERS, kp.1 ≠ "") ∧ (SERVERS.map Prod.fst).Nodup := by
  constructor
  · decide
  · decide

theorem C5_ids_nonempty_unique_witness :
    ("1" : String) ≠ "" :=
  C5_ids_nonempty_unique.1 ("1", profile1) (by decide)

/-- C6: For every entry in the registry, the password field is present
only if that entry's save_password field is true. -/
theorem C6_password_only_if_saved :
    ∀ kp ∈ SERVERS, kp.2.password.isSome = true →
      kp.2.save_password = true := by
  decide

theorem C6_password_only_if_saved_witness :
    profile1.save_password = true :=
  C6_password_only_if_saved ("1", profile1) (by decide) (by decide)

/-- C7: Serializing the registry and then deserializing the result yields
a structure identical to the original, for every registry value and in
particular for the SERVERS constant. -/
theorem C7_round_trip :
    (∀ r : Registry, deserializeRegistry (serializeRegistry r) = some r) ∧
    deserializeRegistry (serializeRegistry SERVERS) = some SERVERS := by
  have h : ∀ r : Registry,
      deserializeRegistry (serializeRegistry r) = some r := by
    intro r
    induction r with
    | nil => rfl
    | cons kp rest ih =>
      obtain ⟨k, p⟩ := kp
      simp only [serializeRegistry, List.map_cons] at ih ⊢
      simp [deserializeRegistry, deserializeProfile_serializeProfile, ih]
  exact ⟨h, h SERVERS⟩

/-- C8: Validating a registry entry whose port is 99999 fails with a
RangeViolation rather than succeeding, as does an entry whose
connect_timeout is out of bounds; the whole registry then also fails to
load with a RangeViolation. -/
theorem C8_range_violation :
    validateEntry "1" { profile1 with port := 99999 } =
      Except.error ValidationError.RangeViolation ∧
    validateEntry "1" { profile1 with connect_timeout := 0 } =
      Except.error ValidationError.RangeViolation ∧
    validateRegistry [("1", { profile1 with port := 99999 })] =
      Except.error ValidationError.RangeViolation := by
  refine ⟨rfl, rfl, ?_⟩
  rfl

/-- C9: For every entry in the registry, the string fields name,
group_name, maintenance_db, and username are all non-empty. -/
theorem C9_strings_nonempty :
    ∀ kp ∈ SERVERS, kp.2.name ≠ "" ∧ kp.2.group_name ≠ "" ∧
      kp.2.maintenance_db ≠ "" ∧ kp.2.username ≠ "" := by
  decide

theorem C9_strings_nonempty_witness :
    profile1.name ≠ "" ∧ profile1.group_name ≠ "" ∧
      profile1.maintenance_db ≠ "" ∧ profile1.username ≠ "" :=
  C9_strings_nonempty ("1", profile1) (by decide)

/-- C10: The registry hardcodes the authentication secret as the
plaintext literal "postgres": for the single entry, password, username
and host all equal "postgres" and save_password is true, so the default
credential is persisted verbatim in the source. -/
theorem C10_hardcoded_credential :
    profile1.password = some "postgres" ∧
    profile1.username = "postgres" ∧
    profile1.host = "postgres" ∧
    profile1.password = some profile1.username ∧
    profile1.save_password = true ∧
    SERVERS = [("1", profile1)] :=
  ⟨rfl, rfl, rfl, rfl, rfl, rfl⟩
